import Mathlib

/-!
Shallow embedding of the authentication and account-lifecycle subsystem of
the `trading_api` repository (files `cruds/security_crud.py`,
`cruds/user_crud.py`, `routes/user_router.py`, `models/user.py`).

Modelling conventions:
* Timestamps are absolute instants measured in whole seconds (`Int`).  Every
  timestamp the subsystem writes (`datetime.now(America/Sao_Paulo)`) is
  timezone-aware, so the `localize`/`astimezone` normalisation in
  `verify_user_activation_to_login` preserves the instant and is the
  identity on this timeline.  `timedelta(days=d)` is `d * 86400` seconds.
* The SQLAlchemy session is a list of user rows; `query(...).first()` is
  first-match lookup, `commit` returns the updated list.  Each operation
  returns the pair (new database state, result), so a side effect and an
  error produced by the same call sit in one return value, as they do in
  one Python call frame.
* A raised `HTTPException(status, detail)` is the `Except.error` branch
  carrying the status code and the detail string of the source.
-/

set_option autoImplicit false

namespace TradingApi

deriving instance DecidableEq for Except

/-- ASCII lowercase of one character, as Python's `str.lower` acts on the
ASCII range (the only range the embedded strings use). -/
def pyCharLower (c : Char) : Char :=
  if 'A' ≤ c ∧ c ≤ 'Z' then Char.ofNat (c.toNat + 32) else c

/-- Python's `str.lower()` (ASCII reading). -/
def pyLower (s : String) : String :=
  String.mk (s.toList.map pyCharLower)

/-- A row of the `users` table (`models/user.py`), restricted to the columns
the authentication subsystem reads or writes. -/
structure User where
  id : Nat
  complete_name : String
  email : String
  password : String
  is_superuser : Bool
  is_active : Bool
  last_login : Option Int
  created_at : Option Int
  activated_at : Option Int
  current_plan : Option String
  deriving Repr, DecidableEq

/-- The persisted `users` table: the rows visible to one session. -/
abbrev DB : Type := List User

/-- An `HTTPException(status_code, detail)` raised by the source. -/
structure HExc where
  status : Nat
  detail : String
  deriving Repr, DecidableEq

/-- Result of a Python call that may raise: either a raised exception or a
returned value. -/
abbrev PyResult (α : Type) : Type := Except HExc α

/-- Plan duration mapping `PLAN_DURATIONS` of `security_crud.py`:
`diario → 1`, `semanal → 7`, `mensal → 30` days; every other code is
absent from the table. -/
def PLAN_DURATIONS (plan : String) : Option Nat :=
  if plan = "diario" then some 1
  else if plan = "semanal" then some 7
  else if plan = "mensal" then some 30
  else none

/-- Seconds in one day: `timedelta(days=1)` on the integer timeline. -/
def secondsPerDay : Int := 86400

/-- `user_crud.get_user_by_id`: `db.query(User).filter(User.id == user_id).first()`,
the first row with the given id. -/
def get_user_by_id (db : DB) (user_id : Nat) : Option User :=
  match db with
  | [] => none
  | u :: rest => if u.id = user_id then some u else get_user_by_id rest user_id

/-- `user_crud.get_user_by_email`:
`db.query(User).filter(User.email == email.lower()).first()`. -/
def get_user_by_email (db : DB) (email : String) : Option User :=
  match db with
  | [] => none
  | u :: rest => if u.email = pyLower email then some u else get_user_by_email rest email

/-- Committing a mutated row: every row with the mutated row's id takes the
new value, all other rows are untouched. -/
def commitUser (db : DB) (u' : User) : DB :=
  db.map (fun v => if v.id = u'.id then u' else v)

/-- `HTTPException(404, "Usuário não encontrado")`. -/
def userNotFound : HExc := ⟨404, "Usuário não encontrado"⟩

/-- `HTTPException(400, "Usuário já está ativado")`. -/
def alreadyActive : HExc := ⟨400, "Usuário já está ativado"⟩

/-- `HTTPException(400, "Usuário já está desativado")`. -/
def alreadyInactive : HExc := ⟨400, "Usuário já está desativado"⟩

/-- `HTTPException(403, "Plano expirado. Renove sua assinatura.")`. -/
def planExpired : HExc := ⟨403, "Plano expirado. Renove sua assinatura."⟩

/-- `security_crud.activate_user(db, user_id, days)` at instant `now`
(`datetime.now(America/Sao_Paulo)`): 404 if the id is unknown, 400 if the
row is already active; otherwise maps `days` 1/7/30 to a plan code (any
other count leaves `current_plan` as it was), sets `is_active = True` and
`activated_at = now`, and commits. -/
def activate_user (db : DB) (user_id : Nat) (days : Nat) (now : Int) :
    DB × PyResult User :=
  match get_user_by_id db user_id with
  | none => (db, .error userNotFound)
  | some user =>
    if user.is_active then (db, .error alreadyActive)
    else
      let plan : Option String :=
        if days = 1 then some "diario"
        else if days = 7 then some "semanal"
        else if days = 30 then some "mensal"
        else user.current_plan
      let user' : User :=
        { user with current_plan := plan, is_active := true, activated_at := some now }
      (commitUser db user', .ok user')

/-- `security_crud.deactivate_user(db, user_id)`: 404 if the id is unknown,
400 if the row is already inactive; otherwise clears `is_active`,
`activated_at` and `current_plan` and commits. -/
def deactivate_user (db : DB) (user_id : Nat) : DB × PyResult User :=
  match get_user_by_id db user_id with
  | none => (db, .error userNotFound)
  | some user =>
    if user.is_active then
      let user' : User :=
        { user with is_active := false, activated_at := none, current_plan := none }
      (commitUser db user', .ok user')
    else (db, .error alreadyInactive)

/-- `security_crud.verify_user_activation_to_login(db, user_id)` at instant
`now`: 404 if the id is unknown; a superuser is returned unchanged; if both
`activated_at` and `current_plan` are set and the lower-cased plan code has
a `PLAN_DURATIONS` entry `d`, then when `now` is strictly past
`activated_at + d` days the row is deactivated (`is_active = False`,
`activated_at = None`, `current_plan = None`), committed, and
`HTTPException(403)` is raised; in every other case the row is returned
unchanged. -/
def verify_user_activation_to_login (db : DB) (user_id : Nat) (now : Int) :
    DB × PyResult User :=
  match get_user_by_id db user_id with
  | none => (db, .error userNotFound)
  | some user =>
    if user.is_superuser then (db, .ok user)
    else
      match user.activated_at, user.current_plan with
      | some activated_at, some plan =>
        match PLAN_DURATIONS (pyLower plan) with
        | some dias_ativos =>
          let data_expiracao : Int := activated_at + dias_ativos * secondsPerDay
          if now > data_expiracao then
            let user' : User :=
              { user with is_active := false, activated_at := none, current_plan := none }
            (commitUser db user', .error planExpired)
          else (db, .ok user)
        | none => (db, .ok user)
      | _, _ => (db, .ok user)

/-- `security_crud.activate_user_by_email(db, email, plan_type)` at instant
`now`: 404 if no row has the (lower-cased) email; a `plan_type` that is not
a key of `PLAN_DURATIONS` is replaced by `mensal`; then unconditionally
sets `is_active = True`, `activated_at = now`, `current_plan = plan_type`
and commits — no already-active check. -/
def activate_user_by_email (db : DB) (email : String) (plan_type : String) (now : Int) :
    DB × PyResult User :=
  match get_user_by_email db email with
  | none => (db, .error userNotFound)
  | some user =>
    let plan_type' : String :=
      if (PLAN_DURATIONS plan_type).isSome then plan_type else "mensal"
    let user' : User :=
      { user with is_active := true, activated_at := some now, current_plan := some plan_type' }
    (commitUser db user', .ok user')

/-- Plan selection of the Kirvano webhook (`routes/user_router.py`,
`webhook_kirvano`): `ONE_TIME → diario`; `RECURRING` maps the lower-cased
charge frequency `weekly → semanal`, `monthly → mensal`,
`annually → anual`, anything else to `mensal`; any other payment type maps
to `mensal`. -/
def kirvano_plan (payment_type : String) (charge_frequency : String) : String :=
  if payment_type = "ONE_TIME" then "diario"
  else if payment_type = "RECURRING" then
    let charge_freq := pyLower charge_frequency
    if charge_freq = "weekly" then "semanal"
    else if charge_freq = "monthly" then "mensal"
    else if charge_freq = "annually" then "anual"
    else "mensal"
  else "mensal"

/-- `user_crud.user_last_login(db, user_id)` at instant `now`: 404 if the id
is unknown, otherwise sets `last_login = now` and commits. -/
def user_last_login (db : DB) (user_id : Nat) (now : Int) : DB × PyResult User :=
  match get_user_by_id db user_id with
  | none => (db, .error userNotFound)
  | some user =>
    let user' : User := { user with last_login := some now }
    (commitUser db user', .ok user')

/-! ## Token service

`jwt.encode` / `jwt.decode` (PyJWT, HS256) are modelled symbolically: an
encoded token is its claim set together with the key it was signed with,
and any string that is not a well-formed token of this server is the
`garbage` constructor.  `jwt.decode(token, key, ...)` recovers the claims
exactly when the token was signed with `key`; a wrong key or a garbage
string is an `InvalidTokenError` (PyJWT's `DecodeError` and
`InvalidSignatureError` are both subclasses of it), and an `exp` claim in
the past is an `ExpiredSignatureError`, raised only after the signature
has been verified.  PyJWT validates `exp` with zero leeway; the theorems
below only use instants strictly past the expiry, so the `≤` boundary
convention is never load-bearing. -/

/-- The claim set carried by a token of this server: the `sub` and `type`
entries of the payload dict (absent entries are `none`, as
`payload.get(...)` returns `None`) and the `exp` claim. -/
structure Payload where
  sub : Option String
  type : Option String
  exp : Int
  deriving Repr, DecidableEq

/-- An encoded JWT string: either a token produced by `jwt.encode` with
some claim set and signing key, or any other string. -/
inductive Token where
  | signed (payload : Payload) (key : String)
  | garbage (s : String)
  deriving Repr, DecidableEq

/-- Exceptions of `jwt.decode`: `ExpiredSignatureError`, or any other
`InvalidTokenError` (malformed token, wrong signature). -/
inductive JwtError where
  | expiredSignature
  | invalidToken
  deriving Repr, DecidableEq

/-- `jwt.decode(token, key, algorithms=["HS256"])` at instant `now`:
signature first, then the `exp` claim. -/
def jwt_decode (token : Token) (key : String) (now : Int) : Except JwtError Payload :=
  match token with
  | .garbage _ => .error .invalidToken
  | .signed payload k =>
    if k = key then
      if payload.exp ≤ now then .error .expiredSignature else .ok payload
    else .error .invalidToken

/-- `ACCESS_TOKEN_EXPIRE_HOURS = 6` as seconds. -/
def accessTokenDefaultTtl : Int := 6 * 3600

/-- `REFRESH_TOKEN_EXPIRE_DAYS = 30` as seconds. -/
def refreshTokenDefaultTtl : Int := 30 * secondsPerDay

/-- `security_crud.create_access_token(data, expires_delta)` at instant
`now` with signing key `key`; `data` is the `sub` entry of the payload dict
(the only entry the call sites pass).  The token expires `expires_delta`
from now, defaulting to `ACCESS_TOKEN_EXPIRE_HOURS` hours, and is tagged
`type = "access"`. -/
def create_access_token (sub : Option String) (expires_delta : Option Int)
    (now : Int) (key : String) : Token :=
  .signed ⟨sub, some "access", now + expires_delta.getD accessTokenDefaultTtl⟩ key

/-- `security_crud.create_refresh_token(data, expires_delta)` at instant
`now` with signing key `key`: as `create_access_token` but tagged
`type = "refresh"` with a 30-day default lifetime. -/
def create_refresh_token (sub : Option String) (expires_delta : Option Int)
    (now : Int) (key : String) : Token :=
  .signed ⟨sub, some "refresh", now + expires_delta.getD refreshTokenDefaultTtl⟩ key

/-- `HTTPException(401, "Não autenticado/Logado!")`, the
`credentials_exception` of `get_current_user`. -/
def credentialsException : HExc := ⟨401, "Não autenticado/Logado!"⟩

/-- `HTTPException(401, "Token inválido para esta operação")`: wrong token
type, raised by both verifiers. -/
def wrongTokenType : HExc := ⟨401, "Token inválido para esta operação"⟩

/-- `HTTPException(401, "Token expirado")`, raised by `get_current_user` on
`ExpiredSignatureError`. -/
def accessTokenExpired : HExc := ⟨401, "Token expirado"⟩

/-- `HTTPException(401, "Refresh token inválido")`: missing subject in a
refresh token. -/
def refreshTokenInvalid : HExc := ⟨401, "Refresh token inválido"⟩

/-- `HTTPException(401, "Refresh token expirado")`, raised by
`verify_refresh_token` on `ExpiredSignatureError`. -/
def refreshTokenExpired : HExc := ⟨401, "Refresh token expirado"⟩

/-- `HTTPException(401, "Erro ao verificar o refresh token")`, raised by
`verify_refresh_token` on any other `PyJWTError`. -/
def refreshTokenError : HExc := ⟨401, "Erro ao verificar o refresh token"⟩

/-- `security_crud.get_current_user(db, token)` at instant `now` with
signing key `key`: decode (expired → 401 "Token expirado", any other
decode failure → `credentials_exception`), then require a non-empty `sub`
(`if not email`), then require `type == "access"`, then look the subject
up by email (missing row → `credentials_exception`). -/
def get_current_user (db : DB) (token : Token) (now : Int) (key : String) :
    PyResult User :=
  match jwt_decode token key now with
  | .error .expiredSignature => .error accessTokenExpired
  | .error .invalidToken => .error credentialsException
  | .ok payload =>
    match payload.sub with
    | none => .error credentialsException
    | some email =>
      if email = "" then .error credentialsException
      else if payload.type ≠ some "access" then .error wrongTokenType
      else
        match get_user_by_email db email with
        | none => .error credentialsException
        | some user => .ok user

/-- `security_crud.verify_refresh_token(token)` at instant `now` with
signing key `key`: decode (expired → 401 "Refresh token expirado", any
other `PyJWTError` → 401 "Erro ao verificar o refresh token"), then
require a non-empty `sub`, then require `type == "refresh"`, and return
the subject email. -/
def verify_refresh_token (token : Token) (now : Int) (key : String) :
    PyResult String :=
  match jwt_decode token key now with
  | .error .expiredSignature => .error refreshTokenExpired
  | .error .invalidToken => .error refreshTokenError
  | .ok payload =>
    match payload.sub with
    | none => .error refreshTokenInvalid
    | some email =>
      if email = "" then .error refreshTokenInvalid
      else if payload.type ≠ some "refresh" then .error wrongTokenType
      else .ok email

/-! ## Password hashing

`pwd_context = CryptContext(schemes=["bcrypt"])` is the passlib context.
Its documented semantics, embedded here: `CryptContext.verify(secret,
hash)` first identifies the hash against the configured scheme and raises
`UnknownHashError` (a `ValueError`) when the stored string is not a
well-formed bcrypt hash — it does not return `False` for such strings;
for a well-formed hash it returns the boolean outcome of the bcrypt
check.  A modern bcrypt hash is `$2{a,b,x,y}$` + a two-digit cost + `$` +
22 salt characters + 31 digest characters over the bcrypt base-64
alphabet `./A-Za-z0-9`.  The bcrypt key-derivation digest itself is not
reproducible here; `bcryptDigest` is an executable stand-in producing a
31-character digest, and no theorem below depends on its concrete values,
only on the identify-then-check structure of `verify`. -/

/-- The bcrypt base-64 alphabet `./A-Za-z0-9`. -/
def isBcryptChar (c : Char) : Bool :=
  c = '.' || c = '/' || c.isAlphanum

/-- The version letters passlib's bcrypt handler identifies: `$2a$`,
`$2b$`, `$2x$`, `$2y$`. -/
def isBcryptIdentChar (c : Char) : Bool :=
  c = 'a' || c = 'b' || c = 'x' || c = 'y'

/-- Parse a stored string as a modern bcrypt hash, returning the cost, the
22-character salt and the 31-character digest, or `none` when the string
is not hash-shaped. -/
def parse_bcrypt (h : String) : Option (Nat × String × String) :=
  match h.toList with
  | '$' :: '2' :: v :: '$' :: c1 :: c2 :: '$' :: rest =>
    if isBcryptIdentChar v && c1.isDigit && c2.isDigit
        && rest.length = 53 && rest.all isBcryptChar then
      some ((c1.toNat - 48) * 10 + (c2.toNat - 48),
            String.mk (rest.take 22), String.mk (rest.drop 22))
    else none
  | _ => none

/-- The bcrypt base-64 alphabet as an indexable list. -/
def bcryptAlphabet : List Char :=
  "./ABCDEFGHIJKLMNOPQRSTUVWXYZabcdefghijklmnopqrstuvwxyz0123456789".toList

/-- Encode `n` as `k` characters of the bcrypt alphabet, least significant
digit first. -/
def bcryptEncode : Nat → Nat → List Char
  | 0, _ => []
  | k + 1, n => bcryptAlphabet.getD (n % 64) '.' :: bcryptEncode k (n / 64)

/-- Stand-in for the bcrypt key-derivation digest: a 31-character string
over the bcrypt alphabet determined by cost, salt and password.  The real
digest is a fixed pure function of the same arguments; the theorems below
never depend on its concrete values. -/
def bcryptDigest (cost : Nat) (salt : String) (password : String) : String :=
  let seed := salt.toList.foldl (fun a c => a * 131 + c.toNat) (cost + 7)
  String.mk (bcryptEncode 31 (password.toList.foldl (fun a c => (a * 65599 + c.toNat) % 2305843009213693951) seed))

/-- Exception of `pwd_context.verify` on a stored value that is not a
well-formed bcrypt hash: passlib's `UnknownHashError` (`ValueError`). -/
inductive PasslibError where
  | unknownHash
  deriving Repr, DecidableEq

/-- `security_crud.verify_password(plain_password, hashed_password)`:
`pwd_context.verify` — identify the stored hash (raising
`UnknownHashError` when it is not bcrypt-shaped), then return whether the
plaintext's digest under the hash's cost and salt matches the stored
digest. -/
def verify_password (plain_password : String) (hashed_password : String) :
    Except PasslibError Bool :=
  match parse_bcrypt hashed_password with
  | none => .error .unknownHash
  | some (cost, salt, digest) =>
    .ok (digest = bcryptDigest cost salt plain_password)

/-- `security_crud.get_password_hash(password)`: `pwd_context.hash` with
bcrypt.  The salt is drawn randomly at each call in the source; here it is
an explicit argument (22 characters of the bcrypt alphabet), and the cost
is passlib's default 12. -/
def get_password_hash (salt : String) (password : String) : String :=
  "$2b$12$" ++ salt ++ bcryptDigest 12 salt password

/-! ## Credential verifier and login flow -/

/-- Python's `\w` word character (ASCII range): letters, digits and
underscore. -/
def isWordChar (c : Char) : Bool :=
  c.isAlphanum || c = '_'

/-- Character class `[\w\.\+\-]` of the local part of the e-mail
alternative. -/
def isLocalChar (c : Char) : Bool :=
  isWordChar c || c = '.' || c = '+' || c = '-'

/-- Character class `[a-zA-Z0-9\-]` of the first domain label. -/
def isDomainChar (c : Char) : Bool :=
  c.isAlphanum || c = '-'

/-- Character class `[a-zA-Z0-9\-\.]` of the domain tail. -/
def isDomainTailChar (c : Char) : Bool :=
  c.isAlphanum || c = '-' || c = '.'

/-- Split a character list at the first occurrence of `sep`, or `none` if
`sep` does not occur. -/
def splitFirst (sep : Char) : List Char → Option (List Char × List Char)
  | [] => none
  | c :: cs =>
    if c = sep then some ([], cs)
    else
      match splitFirst sep cs with
      | some (l, r) => some (c :: l, r)
      | none => none

/-- Match of the alternative `^[\w\.\+\-]+\@[a-zA-Z0-9\-]+\.[a-zA-Z0-9\-\.]+$`.
Since none of the character classes contains `@`, the `@` of a match is the
first `@` of the string, and since the first domain label excludes `.`, the
label boundary is the first `.` after that `@`. -/
def matchesEmailShape (cs : List Char) : Bool :=
  match splitFirst '@' cs with
  | none => false
  | some (localPart, domain) =>
    !localPart.isEmpty && localPart.all isLocalChar &&
      match splitFirst '.' domain with
      | none => false
      | some (label, tail) =>
        !label.isEmpty && label.all isDomainChar &&
          !tail.isEmpty && tail.all isDomainTailChar

/-- The whole regex
`^[\w\.\+\-]+\@[a-zA-Z0-9\-]+\.[a-zA-Z0-9\-\.]+$|^[\w]+$` of
`authenticate_user` (ASCII reading of `\w`). -/
def matches_email_regex (s : String) : Bool :=
  matchesEmailShape s.toList || (!s.isEmpty && s.toList.all isWordChar)

/-- `HTTPException(400, "Formato de e-mail inválido")`. -/
def invalidEmailFormat : HExc := ⟨400, "Formato de e-mail inválido"⟩

/-- `HTTPException(400, "E-mail ou senha incorretos")`. -/
def wrongCredentials : HExc := ⟨400, "E-mail ou senha incorretos"⟩

/-- `HTTPException(400, "Autenticação por nome de usuário não suportada")`. -/
def usernameUnsupported : HExc := ⟨400, "Autenticação por nome de usuário não suportada"⟩

/-- Outcome of a Python call that may raise an `HTTPException` or let a
passlib `UnknownHashError` propagate uncaught. -/
inductive AuthError where
  | http (e : HExc)
  | unknownHash
  deriving Repr, DecidableEq

/-- `security_crud.authenticate_user(db, username, password)`: reject a
username failing the e-mail regex with 400 "Formato de e-mail inválido";
if the username contains `@`, look it up by e-mail and check the password
(no row or a non-matching password → 400 "E-mail ou senha incorretos"; a
malformed stored hash lets `UnknownHashError` escape); a username without
`@` is rejected with 400 "Autenticação por nome de usuário não suportada"
before any lookup or password check. -/
def authenticate_user (db : DB) (username : String) (password : String) :
    Except AuthError User :=
  if !matches_email_regex username then .error (.http invalidEmailFormat)
  else if '@' ∈ username.toList then
    match get_user_by_email db username with
    | none => .error (.http wrongCredentials)
    | some user =>
      match verify_password password user.password with
      | .error .unknownHash => .error .unknownHash
      | .ok ok => if ok then .ok user else .error (.http wrongCredentials)
  else .error (.http usernameUnsupported)

/-- The token triple returned by the login and refresh routes. -/
structure TokenResponse where
  access_token : Token
  refresh_token : Token
  token_type : String
  deriving Repr, DecidableEq

/-- `HTTPException(500, "Erro ao processar login")`, the catch-all of the
login route for non-`HTTPException` exceptions. -/
def loginInternalError : HExc := ⟨500, "Erro ao processar login"⟩

/-- `routes/user_router.login_for_access_token` at instant `now` with
signing key `key`: authenticate, then
`verify_user_activation_to_login`, then issue an access token with
`expires_delta = timedelta(hours=12)` and a refresh token with
`expires_delta = timedelta(days=30)`, then record `last_login`, and
return the bearer triple.  An `HTTPException` raised by a step is
re-raised; an escaping `UnknownHashError` is caught by the generic
handler as 500 "Erro ao processar login". -/
def login_for_access_token (db : DB) (username : String) (password : String)
    (now : Int) (key : String) : DB × PyResult TokenResponse :=
  match authenticate_user db username password with
  | .error (.http e) => (db, .error e)
  | .error .unknownHash => (db, .error loginInternalError)
  | .ok user =>
    match verify_user_activation_to_login db user.id now with
    | (db', .error e) => (db', .error e)
    | (db', .ok user') =>
      let access_token := create_access_token (some user'.email) (some (12 * 3600)) now key
      let refresh_token := create_refresh_token (some user'.email) (some (30 * secondsPerDay)) now key
      match user_last_login db' user'.id now with
      | (db'', .error e) => (db'', .error e)
      | (db'', .ok _) =>
        (db'', .ok ⟨access_token, refresh_token, "bearer"⟩)

/-! ## Concrete fixtures used by the witness and counterexample theorems -/

/-- A 22-character bcrypt salt. -/
def wSalt : String := String.mk (List.replicate 22 'A')

/-- An ordinary signed-up account: inactive, not a superuser, no plan, no
activation date; the stored password hash is the hash of `"pw"`. -/
def wUser : User :=
  ⟨1, "Ana", "a@b.c", get_password_hash wSalt "pw", false, false, none, none, none, none⟩

/-- The fixture account after a `daily` activation at instant 0. -/
def wDaily : User :=
  { wUser with is_active := true, activated_at := some 0, current_plan := some "diario" }

/-- A superuser fixture with no plan and no activation date. -/
def wSuper : User :=
  ⟨2, "Root", "root@b.c", get_password_hash wSalt "pw", true, true, none, none, none, none⟩

/-- An already-active fixture (weekly plan granted at instant 500). -/
def wActive : User :=
  { wUser with is_active := true, activated_at := some 500, current_plan := some "semanal" }

/-! ## Helper lemmas about lookups and commits -/

/-- A row returned by an id lookup carries the id that was looked up. -/
theorem get_user_by_id_eq_id (i : Nat) (u : User) :
    ∀ db : DB, get_user_by_id db i = some u → u.id = i := by
  intro db
  induction db with
  | nil => intro h; simp [get_user_by_id] at h
  | cons v rest ih =>
    intro h
    by_cases hv : v.id = i
    · rw [get_user_by_id, if_pos hv] at h
      cases h
      exact hv
    · rw [get_user_by_id, if_neg hv] at h
      exact ih h

/-- After committing a mutation of the row found by an id lookup, the same
lookup finds the mutated row. -/
theorem get_user_by_id_commit (u u' : User) (hid : u'.id = u.id) :
    ∀ db : DB, get_user_by_id db u.id = some u →
      get_user_by_id (commitUser db u') u.id = some u' := by
  intro db
  induction db with
  | nil => intro h; simp [get_user_by_id] at h
  | cons v rest ih =>
    intro h
    by_cases hv : v.id = u.id
    · rw [get_user_by_id, if_pos hv] at h
      cases h
      simp [commitUser, get_user_by_id, hid]
    · rw [get_user_by_id, if_neg hv] at h
      have hv' : ¬ v.id = u'.id := by rw [hid]; exact hv
      have := ih h
      simp only [commitUser, List.map] at this ⊢
      rw [if_neg hv', get_user_by_id, if_neg hv]
      exact this

/-- A character list matching the e-mail alternative of the regex contains
an `@`. -/
theorem splitFirst_mem (sep : Char) :
    ∀ cs l r : List Char, splitFirst sep cs = some (l, r) → sep ∈ cs := by
  intro cs
  induction cs with
  | nil => intro l r h; simp [splitFirst] at h
  | cons c rest ih =>
    intro l r h
    by_cases hc : c = sep
    · rw [hc]; exact List.mem_cons_self _ _
    · rw [splitFirst, if_neg hc] at h
      match hs : splitFirst sep rest with
      | some (l', r') => exact List.mem_cons_of_mem _ (ih l' r' hs)
      | none => rw [hs] at h; simp at h

/-- A string without `@` cannot match the e-mail alternative of the
regex. -/
theorem matchesEmailShape_false_of_no_at (cs : List Char) (hno : '@' ∉ cs) :
    matchesEmailShape cs = false := by
  cases hs : splitFirst '@' cs with
  | none => simp [matchesEmailShape, hs]
  | some p => exact absurd (splitFirst_mem '@' cs p.1 p.2 (by rw [hs])) hno

/-- The expired branch of `verify_user_activation_to_login`: a
non-superuser row with an activation date, a plan with a duration entry,
and a check instant strictly past the expiry is deactivated and the call
raises `PlanExpired`. -/
theorem verify_activation_expired
    (db : DB) (user_id : Nat) (u : User) (a : Int) (plan : String) (d : Nat) (now : Int)
    (hu : get_user_by_id db user_id = some u)
    (hsup : u.is_superuser = false)
    (hact : u.activated_at = some a)
    (hplan : u.current_plan = some plan)
    (hd : PLAN_DURATIONS (pyLower plan) = some d)
    (hnow : a + (d : Int) * secondsPerDay < now) :
    verify_user_activation_to_login db user_id now =
      (commitUser db { u with is_active := false, activated_at := none, current_plan := none },
        .error planExpired) := by
  simp [verify_user_activation_to_login, hu, hsup, hact, hplan, hd, hnow]

/-! ## Claim theorems -/

/-- Claim C1: for every non-superuser account whose `activated_at` and
`current_plan` are set and whose plan code has a duration entry,
`verify_user_activation_to_login` called at or before
`activated_at + duration` returns the account and the database unchanged,
and called strictly after it fails `PlanExpired` while, in the same
returned state, setting `is_active = false` and clearing `activated_at`
and `current_plan` — side effect and error in one result. -/
theorem C1_plan_expiry_enforced_atomically
    (db : DB) (user_id : Nat) (u : User) (a : Int) (plan : String) (d : Nat) (now : Int)
    (hu : get_user_by_id db user_id = some u)
    (hsup : u.is_superuser = false)
    (hact : u.activated_at = some a)
    (hplan : u.current_plan = some plan)
    (hd : PLAN_DURATIONS (pyLower plan) = some d) :
    (now ≤ a + (d : Int) * secondsPerDay →
      verify_user_activation_to_login db user_id now = (db, .ok u)) ∧
    (a + (d : Int) * secondsPerDay < now →
      verify_user_activation_to_login db user_id now =
        (commitUser db { u with is_active := false, activated_at := none, current_plan := none },
          .error planExpired)) := by
  constructor
  · intro hnow
    have hc : ¬ (a + (d : Int) * secondsPerDay < now) := not_lt.mpr hnow
    simp [verify_user_activation_to_login, hu, hsup, hact, hplan, hd, hc]
  · intro hnow
    simp [verify_user_activation_to_login, hu, hsup, hact, hplan, hd, hnow]

/-- Witness for C1 at the daily fixture: unchanged 23 hours after
activation, expired and deactivated 25 hours after activation. -/
theorem C1_plan_expiry_enforced_atomically_witness :
    verify_user_activation_to_login [wDaily] 1 82800 = ([wDaily], .ok wDaily) ∧
    verify_user_activation_to_login [wDaily] 1 90000 =
      (commitUser [wDaily] { wDaily with is_active := false, activated_at := none, current_plan := none },
        .error planExpired) :=
  ⟨(C1_plan_expiry_enforced_atomically [wDaily] 1 wDaily 0 "diario" 1 82800
      (by decide) (by decide) (by decide) (by decide) (by decide)).1 (by decide),
   (C1_plan_expiry_enforced_atomically [wDaily] 1 wDaily 0 "diario" 1 90000
      (by decide) (by decide) (by decide) (by decide) (by decide)).2 (by decide)⟩

/-- Claim C9: a superuser account passes `verify_user_activation_to_login`
unchanged at every instant, whatever its `current_plan` and `activated_at`
— superusers are exempt from expiry. -/
theorem C9_superuser_never_expires
    (db : DB) (user_id : Nat) (u : User) (now : Int)
    (hu : get_user_by_id db user_id = some u)
    (hsup : u.is_superuser = true) :
    verify_user_activation_to_login db user_id now = (db, .ok u) := by
  simp [verify_user_activation_to_login, hu, hsup]

/-- Witness for C9: the planless superuser fixture, checked far in the
future, is returned unchanged. -/
theorem C9_superuser_never_expires_witness :
    verify_user_activation_to_login [wSuper] 2 999999999 = ([wSuper], .ok wSuper) :=
  C9_superuser_never_expires [wSuper] 2 wSuper 999999999 (by decide) (by decide)

/-- Claim C5: `activate_user` with 7 days on an inactive account sets
`current_plan = "semanal"`, `is_active = true` and `activated_at = now`; a
second 7-day activation of the same account fails `AlreadyActive`, leaves
the database unmodified, and the row keeps its plan and activation
date. -/
theorem C5_activate_weekly_then_already_active
    (db : DB) (user_id : Nat) (u : User) (now now2 : Int)
    (hu : get_user_by_id db user_id = some u)
    (hin : u.is_active = false) :
    activate_user db user_id 7 now =
      (commitUser db { u with current_plan := some "semanal", is_active := true, activated_at := some now },
        .ok { u with current_plan := some "semanal", is_active := true, activated_at := some now }) ∧
    activate_user
        (commitUser db { u with current_plan := some "semanal", is_active := true, activated_at := some now })
        user_id 7 now2 =
      (commitUser db { u with current_plan := some "semanal", is_active := true, activated_at := some now },
        .error alreadyActive) ∧
    get_user_by_id
        (commitUser db { u with current_plan := some "semanal", is_active := true, activated_at := some now })
        user_id =
      some { u with current_plan := some "semanal", is_active := true, activated_at := some now } := by
  have hid : u.id = user_id := get_user_by_id_eq_id user_id u db hu
  subst hid
  have hu2 : get_user_by_id
      (commitUser db { u with current_plan := some "semanal", is_active := true, activated_at := some now })
      u.id =
      some { u with current_plan := some "semanal", is_active := true, activated_at := some now } :=
    get_user_by_id_commit u
      { u with current_plan := some "semanal", is_active := true, activated_at := some now }
      rfl db hu
  refine ⟨?_, ?_, hu2⟩
  · simp [activate_user, hu, hin]
  · simp [activate_user, hu2]

/-- Witness for C5 at the inactive fixture, activated at instant 100 and
re-activated at instant 200. -/
theorem C5_activate_weekly_then_already_active_witness :
    activate_user [wUser] 1 7 100 =
      (commitUser [wUser] { wUser with current_plan := some "semanal", is_active := true, activated_at := some 100 },
        .ok { wUser with current_plan := some "semanal", is_active := true, activated_at := some 100 }) ∧
    activate_user
        (commitUser [wUser] { wUser with current_plan := some "semanal", is_active := true, activated_at := some 100 })
        1 7 200 =
      (commitUser [wUser] { wUser with current_plan := some "semanal", is_active := true, activated_at := some 100 },
        .error alreadyActive) ∧
    get_user_by_id
        (commitUser [wUser] { wUser with current_plan := some "semanal", is_active := true, activated_at := some 100 })
        1 =
      some { wUser with current_plan := some "semanal", is_active := true, activated_at := some 100 } :=
  C5_activate_weekly_then_already_active [wUser] 1 wUser 100 200 (by decide) (by decide)

/-- Claim C10: `activate_user_by_email` succeeds on every existing account
with no already-active check: it unconditionally sets `is_active = true`,
resets `activated_at` to the current instant, and overwrites
`current_plan` with the given code (or the `mensal` fallback when the code
has no duration entry) — restarting the expiry window of an account that
is already active, where `activate_user` would instead fail
`AlreadyActive`. -/
theorem C10_activate_by_email_restarts_active_account
    (db : DB) (email plan_type : String) (u : User) (now now2 : Int)
    (hu : get_user_by_email db email = some u) :
    activate_user_by_email db email plan_type now =
      (commitUser db
          { u with is_active := true, activated_at := some now,
                   current_plan := some (if (PLAN_DURATIONS plan_type).isSome then plan_type else "mensal") },
        .ok { u with is_active := true, activated_at := some now,
                     current_plan := some (if (PLAN_DURATIONS plan_type).isSome then plan_type else "mensal") }) ∧
    (u.is_active = true → get_user_by_id db u.id = some u →
      activate_user db u.id 7 now2 = (db, .error alreadyActive)) := by
  constructor
  · simp [activate_user_by_email, hu]
  · intro hact hid
    simp [activate_user, hid, hact]

/-- Witness for C10 at the already-active fixture: `activate_user_by_email`
overwrites plan and activation date, while `activate_user` on the same
account fails `AlreadyActive`. -/
theorem C10_activate_by_email_restarts_active_account_witness :
    (activate_user_by_email [wActive] "a@b.c" "semanal" 900 =
      (commitUser [wActive]
          { wActive with is_active := true, activated_at := some 900,
                         current_plan := some (if (PLAN_DURATIONS "semanal").isSome then "semanal" else "mensal") },
        .ok { wActive with is_active := true, activated_at := some 900,
                           current_plan := some (if (PLAN_DURATIONS "semanal").isSome then "semanal" else "mensal") })) ∧
    activate_user [wActive] 1 7 950 = ([wActive], .error alreadyActive) :=
  ⟨(C10_activate_by_email_restarts_active_account [wActive] "a@b.c" "semanal" wActive 900 950 (by decide)).1,
   (C10_activate_by_email_restarts_active_account [wActive] "a@b.c" "semanal" wActive 900 950 (by decide)).2
     (by decide) (by decide)⟩

/-- Claim C2: an access token freshly issued for a subject is accepted by
the access verifier, which resolves that same subject, and is rejected
with `WrongType` by the refresh verifier; symmetrically a fresh refresh
token is rejected with `WrongType` by the access verifier and accepted by
the refresh verifier — the type tag is checked on every verification. -/
theorem C2_token_type_checked_on_every_verification
    (db : DB) (email : String) (u : User) (ttl_a ttl_r now : Int) (key : String)
    (hne : email ≠ "")
    (hpos_a : 0 < ttl_a) (hpos_r : 0 < ttl_r)
    (hu : get_user_by_email db email = some u) :
    get_current_user db (create_access_token (some email) (some ttl_a) now key) now key = .ok u ∧
    verify_refresh_token (create_access_token (some email) (some ttl_a) now key) now key =
      .error wrongTokenType ∧
    get_current_user db (create_refresh_token (some email) (some ttl_r) now key) now key =
      .error wrongTokenType ∧
    verify_refresh_token (create_refresh_token (some email) (some ttl_r) now key) now key =
      .ok email := by
  have hexp_a : ¬ (now + ttl_a ≤ now) := by omega
  have hexp_r : ¬ (now + ttl_r ≤ now) := by omega
  refine ⟨?_, ?_, ?_, ?_⟩ <;>
    simp [get_current_user, verify_refresh_token, jwt_decode, create_access_token,
      create_refresh_token, hexp_a, hexp_r, hne, hu]

/-- Witness for C2 at the signed-up fixture with 100-second lifetimes,
verified at the instant of issuance. -/
theorem C2_token_type_checked_on_every_verification_witness :
    get_current_user [wUser] (create_access_token (some "a@b.c") (some 100) 0 "k") 0 "k" = .ok wUser ∧
    verify_refresh_token (create_access_token (some "a@b.c") (some 100) 0 "k") 0 "k" =
      .error wrongTokenType ∧
    get_current_user [wUser] (create_refresh_token (some "a@b.c") (some 100) 0 "k") 0 "k" =
      .error wrongTokenType ∧
    verify_refresh_token (create_refresh_token (some "a@b.c") (some 100) 0 "k") 0 "k" =
      .ok "a@b.c" :=
  C2_token_type_checked_on_every_verification [wUser] "a@b.c" wUser 100 100 0 "k"
    (by decide) (by decide) (by decide) (by decide)

/-- Claim C7: a token issued by either issuer, once strictly past its
expiry instant, fails verification with the expired error kind — 401
"Token expirado" for access tokens, 401 "Refresh token expirado" for
refresh tokens — and never with the malformed/invalid-signature kinds:
the expiry branch is distinguished in both verifiers. -/
theorem C7_expired_token_fails_expired
    (db : DB) (sub : Option String) (delta_a delta_r : Option Int) (t0 now : Int) (key : String)
    (ha : t0 + delta_a.getD accessTokenDefaultTtl < now)
    (hr : t0 + delta_r.getD refreshTokenDefaultTtl < now) :
    get_current_user db (create_access_token sub delta_a t0 key) now key =
      .error accessTokenExpired ∧
    verify_refresh_token (create_refresh_token sub delta_r t0 key) now key =
      .error refreshTokenExpired := by
  have ha' : t0 + delta_a.getD accessTokenDefaultTtl ≤ now := le_of_lt ha
  have hr' : t0 + delta_r.getD refreshTokenDefaultTtl ≤ now := le_of_lt hr
  constructor <;>
    simp [get_current_user, verify_refresh_token, jwt_decode, create_access_token,
      create_refresh_token, ha', hr']

/-- Witness for C7: tokens issued at instant 0 with a 100-second lifetime,
verified at instant 200. -/
theorem C7_expired_token_fails_expired_witness :
    get_current_user [] (create_access_token (some "a@b.c") (some 100) 0 "k") 200 "k" =
      .error accessTokenExpired ∧
    verify_refresh_token (create_refresh_token (some "a@b.c") (some 100) 0 "k") 200 "k" =
      .error refreshTokenExpired :=
  C7_expired_token_fails_expired [] (some "a@b.c") (some 100) (some 100) 0 200 "k"
    (by decide) (by decide)

/-- Claim C6: a non-superuser account with correct credentials whose
`is_active` flag is false and whose `activated_at` or `current_plan` is
unset is not rejected by the login flow: authentication succeeds, the
expiry gate returns the account and the database unchanged (it never
inspects `is_active`), and the login route issues the access and refresh
tokens, recording only `last_login`. -/
theorem C6_inactive_unplanned_account_can_login
    (db : DB) (username password : String) (u : User) (now : Int) (key : String)
    (hre : matches_email_regex username = true)
    (hat : '@' ∈ username.toList)
    (hmail : get_user_by_email db username = some u)
    (hpw : verify_password password u.password = .ok true)
    (hid : get_user_by_id db u.id = some u)
    (hsup : u.is_superuser = false)
    (_hin : u.is_active = false)
    (hunset : u.activated_at = none ∨ u.current_plan = none) :
    authenticate_user db username password = .ok u ∧
    verify_user_activation_to_login db u.id now = (db, .ok u) ∧
    login_for_access_token db username password now key =
      (commitUser db { u with last_login := some now },
        .ok ⟨create_access_token (some u.email) (some (12 * 3600)) now key,
             create_refresh_token (some u.email) (some (30 * secondsPerDay)) now key,
             "bearer"⟩) := by
  have hauth : authenticate_user db username password = .ok u := by
    simp [authenticate_user, hre, hat, hmail, hpw]
    exact hat
  have hgate : verify_user_activation_to_login db u.id now = (db, .ok u) := by
    rcases hunset with h | h
    · cases hplan : u.current_plan <;>
        simp [verify_user_activation_to_login, hid, hsup, h, hplan]
    · cases hact : u.activated_at <;>
        simp [verify_user_activation_to_login, hid, hsup, h, hact]
  refine ⟨hauth, hgate, ?_⟩
  simp [login_for_access_token, hauth, hgate, user_last_login, hid]

/-- Witness for C6: the inactive, planless signed-up fixture logs in with
its correct password and receives both tokens. -/
theorem C6_inactive_unplanned_account_can_login_witness :
    authenticate_user [wUser] "a@b.c" "pw" = .ok wUser ∧
    verify_user_activation_to_login [wUser] 1 77 = ([wUser], .ok wUser) ∧
    login_for_access_token [wUser] "a@b.c" "pw" 77 "k" =
      (commitUser [wUser] { wUser with last_login := some 77 },
        .ok ⟨create_access_token (some wUser.email) (some (12 * 3600)) 77 "k",
             create_refresh_token (some wUser.email) (some (30 * secondsPerDay)) 77 "k",
             "bearer"⟩) :=
  C6_inactive_unplanned_account_can_login [wUser] "a@b.c" "pw" wUser 77 "k"
    (by decide) (by decide) (by decide) (by decide) (by decide) (by decide) (by decide)
    (Or.inl (by decide))

/-- Counterexample to claim C3: the webhook plan selection maps an
annually-billed payment to `anual`, but `activate_user_by_email` stores
the `mensal` fallback for it, and 31 days after activation the expiry
gate fails `PlanExpired` — the expiry check is not skipped. -/
theorem C3_counterexample_webhook_anual_expires :
    kirvano_plan "RECURRING" "annually" = "anual" ∧
    (activate_user_by_email [wUser] "a@b.c" (kirvano_plan "RECURRING" "annually") 0).2 =
      .ok { wUser with is_active := true, activated_at := some 0, current_plan := some "mensal" } ∧
    (verify_user_activation_to_login
        (activate_user_by_email [wUser] "a@b.c" (kirvano_plan "RECURRING" "annually") 0).1
        1 2678400).2 =
      .error planExpired := by decide

/-- Claim C3 (amended): an account activated through the webhook
plan-selection path with the annually-billed code `anual` is stored with
the fallback plan `mensal` — the code never reaches the account row — so
`verify_user_activation_to_login` does fail `PlanExpired`, deactivating
the account, once more than 30 days have elapsed since activation. -/
theorem C3_amended_webhook_anual_stores_mensal_and_expires
    (db : DB) (email : String) (u : User) (t now : Int)
    (hu : get_user_by_email db email = some u)
    (hid : get_user_by_id db u.id = some u)
    (hsup : u.is_superuser = false)
    (hlate : t + 30 * secondsPerDay < now) :
    activate_user_by_email db email (kirvano_plan "RECURRING" "annually") t =
      (commitUser db { u with is_active := true, activated_at := some t, current_plan := some "mensal" },
        .ok { u with is_active := true, activated_at := some t, current_plan := some "mensal" }) ∧
    verify_user_activation_to_login
        (commitUser db { u with is_active := true, activated_at := some t, current_plan := some "mensal" })
        u.id now =
      (commitUser
          (commitUser db { u with is_active := true, activated_at := some t, current_plan := some "mensal" })
          { u with is_active := false, activated_at := none, current_plan := none },
        .error planExpired) := by
  have hplan : kirvano_plan "RECURRING" "annually" = "anual" := by decide
  have hu1 : get_user_by_id
      (commitUser db { u with is_active := true, activated_at := some t, current_plan := some "mensal" })
      u.id =
      some { u with is_active := true, activated_at := some t, current_plan := some "mensal" } :=
    get_user_by_id_commit u
      { u with is_active := true, activated_at := some t, current_plan := some "mensal" }
      rfl db hid
  have h30 : PLAN_DURATIONS (pyLower "mensal") = some 30 := by decide
  constructor
  · rw [hplan]
    have hanual : PLAN_DURATIONS "anual" = none := by decide
    simp [activate_user_by_email, hu, hanual]
  · exact verify_activation_expired _ u.id
      { u with is_active := true, activated_at := some t, current_plan := some "mensal" }
      t "mensal" 30 now hu1 hsup rfl rfl h30 (by exact_mod_cast hlate)

/-- Witness for the amended C3 at the signed-up fixture, activated at
instant 0 and checked 31 days later. -/
theorem C3_amended_webhook_anual_stores_mensal_and_expires_witness :
    activate_user_by_email [wUser] "a@b.c" (kirvano_plan "RECURRING" "annually") 0 =
      (commitUser [wUser] { wUser with is_active := true, activated_at := some 0, current_plan := some "mensal" },
        .ok { wUser with is_active := true, activated_at := some 0, current_plan := some "mensal" }) ∧
    verify_user_activation_to_login
        (commitUser [wUser] { wUser with is_active := true, activated_at := some 0, current_plan := some "mensal" })
        1 2678400 =
      (commitUser
          (commitUser [wUser] { wUser with is_active := true, activated_at := some 0, current_plan := some "mensal" })
          { wUser with is_active := false, activated_at := none, current_plan := none },
        .error planExpired) :=
  C3_amended_webhook_anual_stores_mensal_and_expires [wUser] "a@b.c" wUser 0 2678400
    (by decide) (by decide) (by decide) (by decide)

/-- Counterexample to claim C4: on the non-hash-shaped stored value
`"notahash"`, `verify_password` raises passlib's `UnknownHashError`
instead of returning `false`. -/
theorem C4_counterexample_malformed_hash_raises :
    verify_password "secret" "notahash" = .error .unknownHash := by decide

/-- Claim C4 (amended): `verify_password` returns a boolean exactly for
stored values that are well-formed bcrypt hashes; on a malformed stored
value it raises `UnknownHashError` rather than returning `false`. -/
theorem C4_amended_verify_ok_iff_wellformed_hash (plain stored : String) :
    (∃ b : Bool, verify_password plain stored = .ok b) ↔ (parse_bcrypt stored).isSome := by
  cases hp : parse_bcrypt stored with
  | none => simp [verify_password, hp]
  | some p =>
    obtain ⟨cost, salt, digest⟩ := p
    simp [verify_password, hp]

/-- Counterexample to claim C8: the identifier `"a.b"` contains no `@`,
yet `authenticate_user` rejects it with the `InvalidFormat` error, not the
distinct `UnsupportedIdentifier` one. -/
theorem C8_counterexample_dotted_identifier_invalid_format :
    '@' ∉ "a.b".toList ∧
    authenticate_user [wUser] "a.b" "pw" = .error (.http invalidEmailFormat) ∧
    invalidEmailFormat ≠ usernameUnsupported := by decide

/-- Claim C8 (amended): an identifier without `@` is rejected before any
e-mail lookup or password check — with `UnsupportedIdentifier` when it
matches the bare-word shape, and with `InvalidFormat` when it matches
neither the e-mail nor the bare-word shape; the outcome depends on
neither the database nor the password. -/
theorem C8_amended_no_at_rejected_before_lookup
    (db : DB) (username password : String)
    (hno : '@' ∉ username.toList) :
    authenticate_user db username password =
      .error (.http (if !username.isEmpty && username.toList.all isWordChar
                     then usernameUnsupported else invalidEmailFormat)) := by
  have hshape : matchesEmailShape username.toList = false :=
    matchesEmailShape_false_of_no_at username.toList hno
  by_cases hw : (!username.isEmpty && username.toList.all isWordChar) = true
  · have hre : matches_email_regex username = true := by
      unfold matches_email_regex
      rw [hshape, hw]
      rfl
    unfold authenticate_user
    rw [hre, hw]
    simp [hno]
    intro hmem
    exact absurd hmem hno
  · have hw' : (!username.isEmpty && username.toList.all isWordChar) = false := by
      simpa using hw
    have hre : matches_email_regex username = false := by
      unfold matches_email_regex
      rw [hshape, hw']
      rfl
    unfold authenticate_user
    rw [hre, hw']
    simp

/-- Witness for the amended C8: the bare-word identifier `"user"` is
rejected as unsupported against an empty database. -/
theorem C8_amended_no_at_rejected_before_lookup_witness :
    authenticate_user [] "user" "pw" = .error (.http usernameUnsupported) :=
  (C8_amended_no_at_rejected_before_lookup [] "user" "pw" (by decide)).trans (by decide)

end TradingApi
